import Mathlib

/-!
Verification development for the Car-Management-System repository.

The development shallowly embeds the data-access layer of the application:
the `cars` / `car_images` tables kept by the two `Database` classes
(`src/gui.py` and `src/database.py`), the form validation of
`CarFormDialog.get_data`, the SQL filter builder `fetch_cars_by_filters`,
the table sort of `CarTableModel.sort`, the status-bar / analytics
aggregates, and the spreadsheet export / import loop.

Machine reals (Python floats, SQLite REAL) are modelled as exact rationals
(`Rat`); SQL result rows are modelled as the Lean values of the records the
write paths of the application store.
-/

namespace CarSys

/-- Python `str.strip` whitespace test (the ASCII whitespace characters
Python strips: space, tab, newline, carriage return, vertical tab, form
feed). -/
def isSpaceChar (c : Char) : Bool :=
  c == ' ' || c == '\t' || c == '\n' || c == '\r' || c == '\x0b' || c == '\x0c'

/-- Python `str.strip()`: drop leading and trailing whitespace. -/
def pyStrip (s : String) : String :=
  ⟨((s.data.dropWhile isSpaceChar).reverse.dropWhile isSpaceChar).reverse⟩

/-- Python `str.lower()` restricted to ASCII case folding (the only case
folding SQLite's `LIKE` applies, and the one exercised by the data). -/
def pyLower (s : String) : String :=
  ⟨s.data.map Char.toLower⟩

/-- `ENUM_TYPES` from `src/gui.py`. -/
def ENUM_TYPES : List String :=
  ["Sedan", "SUV", "Hatchback", "Convertible", "Coupe", "Truck", "Van"]

/-- `ENUM_CONDITIONS` from `src/gui.py`. -/
def ENUM_CONDITIONS : List String := ["New", "Used", "Certified"]

/-- `ENUM_DRIVES` from `src/gui.py`. -/
def ENUM_DRIVES : List String := ["FWD", "RWD", "AWD", "4WD"]

/-- The twelve data columns of one `cars` row (everything except `id`),
in the column order of `create_tables`. -/
structure CarFields where
  make : String
  model : String
  year : Int
  price : Rat
  color : String
  type : String
  condition : String
  drive_trains : String
  engine_power : Int
  liter_capacity : Int
  salesperson : String
  image_path : String
deriving DecidableEq, Repr

/-- One row of the `cars` table: the AUTOINCREMENT `id` plus the data
columns. -/
structure Car where
  id : Nat
  fields : CarFields
deriving DecidableEq, Repr

/-- One row of the `car_images` table. -/
structure ImageRow where
  id : Nat
  car_id : Nat
  path : String
deriving DecidableEq, Repr

/-- The persistent state both `Database` classes operate on: the two
tables plus the AUTOINCREMENT counters (SQLite AUTOINCREMENT never reuses
an id, so a monotone counter is faithful). -/
structure DB where
  cars : List Car
  images : List ImageRow
  next_id : Nat
  next_img_id : Nat
deriving DecidableEq, Repr

/-- A store with no rows. -/
def emptyDB : DB := ⟨[], [], 1, 1⟩

/-- The `updates` dict handed to `update_car`: the call sites
(`setData`, `edit_selected_car`, the image-path updates) only ever key it
by the twelve data columns, so a record of optional fields embeds it. -/
structure CarPatch where
  make : Option String := none
  model : Option String := none
  year : Option Int := none
  price : Option Rat := none
  color : Option String := none
  type : Option String := none
  condition : Option String := none
  drive_trains : Option String := none
  engine_power : Option Int := none
  liter_capacity : Option Int := none
  salesperson : Option String := none
  image_path : Option String := none
deriving DecidableEq, Repr

/-- Python `not updates`: the dict has no keys. -/
def patchIsEmpty (p : CarPatch) : Bool :=
  p.make == none && p.model == none && p.year == none && p.price == none &&
  p.color == none && p.type == none && p.condition == none &&
  p.drive_trains == none && p.engine_power == none &&
  p.liter_capacity == none && p.salesperson == none && p.image_path == none

/-- The effect of the generated `UPDATE cars SET k1=?, k2=?, ...` on one
row: each column named by a key of the dict is overwritten, every other
column keeps its value. -/
def applyPatch (p : CarPatch) (c : Car) : Car :=
  { c with fields :=
    { make := p.make.getD c.fields.make
      model := p.model.getD c.fields.model
      year := p.year.getD c.fields.year
      price := p.price.getD c.fields.price
      color := p.color.getD c.fields.color
      type := p.type.getD c.fields.type
      condition := p.condition.getD c.fields.condition
      drive_trains := p.drive_trains.getD c.fields.drive_trains
      engine_power := p.engine_power.getD c.fields.engine_power
      liter_capacity := p.liter_capacity.getD c.fields.liter_capacity
      salesperson := p.salesperson.getD c.fields.salesperson
      image_path := p.image_path.getD c.fields.image_path } }

/-! ### The `Database` class of `src/gui.py`
Its methods run the SQL directly on the connection and let any
`sqlite3` error propagate; on the happy path they behave as below. -/

/-- `Database.insert_car` (gui.py): `INSERT INTO cars (...) VALUES (...)`
with all twelve data columns; the row gets the next AUTOINCREMENT id. -/
def insert_car (db : DB) (f : CarFields) : DB :=
  { db with cars := db.cars ++ [⟨db.next_id, f⟩], next_id := db.next_id + 1 }

/-- `Database.fetch_all_cars` (gui.py): `SELECT * FROM cars`. -/
def fetch_all_cars (db : DB) : List Car := db.cars

/-- `Database.fetch_car_by_id` (gui.py): `SELECT * FROM cars WHERE id = ?`
then `fetchone()` — the first matching row, `None` when there is none. -/
def fetch_car_by_id (db : DB) (car_id : Nat) : Option Car :=
  db.cars.find? (fun c => c.id == car_id)

/-- `Database.update_car` (gui.py): `UPDATE cars SET ... WHERE id = ?` —
every row whose id matches is patched, all other rows are untouched.
(The degenerate empty-dict call, which would generate malformed SQL, is
never made by gui.py's call sites; `database.py`'s guard for it is
modelled separately below.) -/
def update_car (db : DB) (car_id : Nat) (p : CarPatch) : DB :=
  { db with cars := db.cars.map (fun c => if c.id == car_id then applyPatch p c else c) }

/-- `Database.delete_car` (gui.py): `DELETE FROM cars WHERE id = ?`.
Only the `cars` table is touched. -/
def delete_car (db : DB) (car_id : Nat) : DB :=
  { db with cars := db.cars.filter (fun c => c.id != car_id) }

/-- `Database.add_image` (gui.py): `INSERT INTO car_images (car_id, path)`. -/
def add_image (db : DB) (car_id : Nat) (path : String) : DB :=
  { db with images := db.images ++ [⟨db.next_img_id, car_id, path⟩],
            next_img_id := db.next_img_id + 1 }

/-- `Database.fetch_images` (gui.py): `SELECT id, path FROM car_images
WHERE car_id = ?`. -/
def fetch_images (db : DB) (car_id : Nat) : List (Nat × String) :=
  (db.images.filter (fun r => r.car_id == car_id)).map (fun r => (r.id, r.path))

/-- `Database.delete_image` (gui.py): `DELETE FROM car_images WHERE id = ?`. -/
def delete_image (db : DB) (img_id : Nat) : DB :=
  { db with images := db.images.filter (fun r => r.id != img_id) }

/-! ### `CarFormDialog.get_data` (gui.py lines 609-629)
The validation run before any insert or update built from the dialog.
The translator key of the raised `ValueError` is the error value. -/

/-- `CarFormDialog.get_data`: strip the text inputs, then check the year
range, the positivity of price / engine power / liter capacity, and
non-emptiness of the required strings, in that order; on success return
the tuple that will be persisted.  No enum membership check is performed
here (the combo boxes are the only guard in the dialog). -/
def get_data (d : CarFields) : Except String CarFields :=
  let make := pyStrip d.make
  let model := pyStrip d.model
  let color := pyStrip d.color
  let sales := pyStrip d.salesperson
  if ¬ (1886 ≤ d.year ∧ d.year ≤ 2050) then .error "invalid_year_range"
  else if d.price ≤ 0 ∨ d.engine_power ≤ 0 ∨ d.liter_capacity ≤ 0 then
    .error "invalid_positive_value"
  else if ¬ (make ≠ "" ∧ model ≠ "" ∧ color ≠ "" ∧ sales ≠ "") then
    .error "all_fields_required"
  else .ok { d with make := make, model := model, color := color, salesperson := sales }

/-- `MainWindow.add_car_dialog` (gui.py): run `get_data`; on a
`ValueError` show the message and return with the store untouched, else
insert the validated tuple.  The image file copy is filesystem work
outside the store; as in the no-file case the stored `image_path` is
`""`.  Result: the store afterwards, and the error message if any. -/
def add_car_dialog (db : DB) (d : CarFields) : DB × Option String :=
  match get_data d with
  | .error e => (db, some e)
  | .ok f => (insert_car db { f with image_path := "" }, none)

/-! ### The `Database` class of `src/database.py`
`execute_query` catches every `sqlite3.Error`, prints it and returns
`None`; the methods turn that `None` into an empty list / `None` /
missing row-id.  The parameter `engineOk` says whether the underlying
engine executes the statement or reports an error. -/

namespace DatabasePy

/-- The `.strip()` calls of `database.py`'s `add_car` on its string
values (`image_path` is taken verbatim, not stripped). -/
def stripFields (f : CarFields) : CarFields :=
  { f with make := pyStrip f.make, model := pyStrip f.model,
           color := pyStrip f.color, type := pyStrip f.type,
           condition := pyStrip f.condition,
           drive_trains := pyStrip f.drive_trains,
           salesperson := pyStrip f.salesperson }

/-- `Database.add_car` (database.py): build the INSERT; if the engine
errors, `execute_query` returns `None` and `add_car` returns `None`
(no row id), leaving the store unchanged; else the stripped values are
inserted and `lastrowid` is returned. -/
def add_car (engineOk : Bool) (db : DB) (f : CarFields) : Option Nat × DB :=
  if engineOk then (some db.next_id, insert_car db (stripFields f))
  else (none, db)

/-- `Database.fetch_all_cars` (database.py): on an engine error the
cursor is `None` and the method returns `[]`. -/
def fetch_all_cars (engineOk : Bool) (db : DB) : List Car :=
  if engineOk then db.cars else []

/-- `Database.fetch_cars_by_make` (database.py): `SELECT * FROM cars
WHERE make=?`; `[]` on an engine error. -/
def fetch_cars_by_make (engineOk : Bool) (db : DB) (make : String) : List Car :=
  if engineOk then db.cars.filter (fun c => c.fields.make == make) else []

/-- `Database.fetch_car_by_id` (database.py): `fetchone()` of the
matching rows; `None` on an engine error. -/
def fetch_car_by_id (engineOk : Bool) (db : DB) (car_id : Nat) : Option Car :=
  if engineOk then db.cars.find? (fun c => c.id == car_id) else none

/-- `Database.update_car` (database.py): `if not updates: return None`
before any SQL; otherwise run the UPDATE, whose cursor (`some ()`) is
returned on success and `None` on an engine error.  The UPDATE itself
succeeds whether or not any row matches the id. -/
def update_car (engineOk : Bool) (db : DB) (car_id : Nat) (p : CarPatch) :
    Option Unit × DB :=
  if patchIsEmpty p then (none, db)
  else if engineOk then (some (), CarSys.update_car db car_id p)
  else (none, db)

/-- `Database.delete_car` (database.py): the DELETE's cursor on success,
`None` and an unchanged store on an engine error. -/
def delete_car (engineOk : Bool) (db : DB) (car_id : Nat) : Option Unit × DB :=
  if engineOk then (some (), CarSys.delete_car db car_id)
  else (none, db)

end DatabasePy

/-! ### `Database.fetch_cars_by_filters` (gui.py lines 186-212)
The method starts from `SELECT * FROM cars WHERE 1=1` and appends one
`AND ...` clause per supplied criterion; the row set returned is the rows
satisfying the conjunction of the appended clauses. -/

/-- Literal prefix test on character lists. -/
def startsWithChars : List Char → List Char → Bool
  | [], _ => true
  | _ :: _, [] => false
  | a :: as, b :: bs => a == b && startsWithChars as bs

/-- Literal substring test on character lists. -/
def hasSub : List Char → List Char → Bool
  | n, [] => startsWithChars n []
  | n, h :: t => startsWithChars n (h :: t) || hasSub n t

/-- The clause `make LIKE '%' || m || '%'`: SQLite `LIKE` is an
ASCII-case-insensitive match; for a search string without the wildcard
metacharacters `%`/`_` (the only kind the search form produces) it is a
case-insensitive substring test. -/
def likeMake (m : String) (c : Car) : Bool :=
  hasSub (pyLower m).data (pyLower c.fields.make).data

/-- One `if make:` clause: appended only when the search string is
truthy (non-empty). -/
def makeClause (m : String) : List (Car → Bool) :=
  if m ≠ "" then [likeMake m] else []

/-- One `if x is not None:` bound clause: appended only when the bound
was supplied. -/
def optClause {α : Type} (o : Option α) (mk : α → Car → Bool) : List (Car → Bool) :=
  match o with
  | some x => [mk x]
  | none => []

/-- One `if x and x != "Any":` equality clause: appended only when the
value is truthy and not `"Any"`. -/
def enumClause (o : Option String) (sel : Car → String) : List (Car → Bool) :=
  match o with
  | some s => if s ≠ "" ∧ s ≠ "Any" then [fun c => sel c == s] else []
  | none => []

/-- The clause list built by `fetch_cars_by_filters`, in the order the
Python appends them. -/
def filterClauses (make : String) (year_min year_max : Option Int)
    (price_min price_max : Option Rat) (condition drive_trains : Option String) :
    List (Car → Bool) :=
  makeClause make ++
  optClause year_min (fun y c => decide (y ≤ c.fields.year)) ++
  optClause year_max (fun y c => decide (c.fields.year ≤ y)) ++
  optClause price_min (fun q c => decide (q ≤ c.fields.price)) ++
  optClause price_max (fun q c => decide (c.fields.price ≤ q)) ++
  enumClause condition (fun c => c.fields.condition) ++
  enumClause drive_trains (fun c => c.fields.drive_trains)

/-- `Database.fetch_cars_by_filters` (gui.py): the rows satisfying every
appended clause. -/
def fetch_cars_by_filters (db : DB) (make : String) (year_min year_max : Option Int)
    (price_min price_max : Option Rat) (condition drive_trains : Option String) :
    List Car :=
  db.cars.filter (fun c =>
    (filterClauses make year_min year_max price_min price_max condition drive_trains).all
      (fun f => f c))

/-! ### Aggregates (`MainWindow._update_status`, `_refresh_analytics`)
`_update_status` computes the mean and the median of the price column
over the listed rows; `_refresh_analytics` computes the count, the mean,
and a `Counter` of the `make` column.  Python's `sorted` is a stable
sort by `<=`; a stable sort is unique, so `List.insertionSort` computes
the same list. -/

/-- The price column of a record list. -/
def prices (cars : List Car) : List Rat := cars.map (fun c => c.fields.price)

/-- `avg = sum(prices)/len(prices) if prices else 0.0`. -/
def average_of (l : List Rat) : Rat :=
  if l = [] then 0 else l.sum / l.length

/-- `sorted(prices)` (ascending). -/
def sorted_of (l : List Rat) : List Rat :=
  List.insertionSort (fun a b => a ≤ b) l

/-- The median of `_update_status`: `0.0` for an empty list, else
`sp[mid]` for odd length and `(sp[mid-1]+sp[mid])/2` for even length,
where `sp = sorted(prices)` and `mid = len(sp)//2`. -/
def median_of (l : List Rat) : Rat :=
  if l = [] then 0
  else
    let sp := sorted_of l
    let mid := sp.length / 2
    if sp.length % 2 = 1 then sp.getD mid 0
    else (sp.getD (mid - 1) 0 + sp.getD mid 0) / 2

/-- `Counter(makes)[m]` of `_refresh_analytics`: how many records carry
make `m`. -/
def count_by_make (cars : List Car) (m : String) : Nat :=
  cars.countP (fun c => c.fields.make == m)

/-- The aggregate numbers the status bar / analytics page display. -/
structure Stats where
  count : Nat
  mean : Rat
  median : Rat
deriving DecidableEq, Repr

/-- `aggregate`: count, arithmetic mean of price, median of price over a
record list (the by-make frequencies are `count_by_make`). -/
def aggregate (cars : List Car) : Stats :=
  ⟨cars.length, average_of (prices cars), median_of (prices cars)⟩

/-! ### `CarTableModel.sort` (gui.py lines 361-376)
`self._data` is a list of SQL result rows; a cell is an integer, a real
or a text.  The key function maps a numeric column's cell through
`float(...)`, substituting `float("inf")` when that raises, and a text
column's cell through `str(...).lower()`; the list is then stably
sorted by the key (descending when requested). -/

/-- One SQLite cell as the rows of `cars` can hold it. -/
inductive Value
  | intV : Int → Value
  | ratV : Rat → Value
  | strV : String → Value
deriving DecidableEq, Repr

/-- `DISPLAY_COLS = list(range(12))` from gui.py. -/
def DISPLAY_COLS : List Nat := List.range 12

/-- `NUMERIC_COLS = {0, 3, 4, 9, 10}` from gui.py. -/
def NUMERIC_COLS : List Nat := [0, 3, 4, 9, 10]

/-- Value of a digit string. -/
def digitsToNat (ds : List Char) : Nat :=
  ds.foldl (fun n c => 10 * n + (c.toNat - 48)) 0

/-- Split a character list at the first occurrence of `c` (the
occurrence, when present, heads the second component). -/
def breakAt (c : Char) : List Char → List Char × List Char
  | [] => ([], [])
  | a :: as =>
    if a == c then ([], a :: as)
    else
      let p := breakAt c as
      (a :: p.1, p.2)

/-- Strip one leading sign; `true` means negative. -/
def parseSign : List Char → Bool × List Char
  | '+' :: rest => (false, rest)
  | '-' :: rest => (true, rest)
  | l => (false, l)

/-- An unsigned decimal mantissa `digits [. digits]` with at least one
digit overall. -/
def parseUnsignedMantissa (l : List Char) : Option Rat :=
  let p := breakAt '.' l
  match p.2 with
  | [] =>
    if p.1 ≠ [] ∧ p.1.all Char.isDigit then some (digitsToNat p.1) else none
  | _ :: fp =>
    if (p.1 ++ fp) ≠ [] ∧ p.1.all Char.isDigit ∧ fp.all Char.isDigit then
      some ((digitsToNat p.1 : Rat) + (digitsToNat fp : Rat) / (10 : Rat) ^ fp.length)
    else none

/-- Python `float(s)` on a string: optional surrounding whitespace, an
optionally signed decimal mantissa, an optional exponent part.  Strings
outside this grammar (the "non-numeric or unparsable" values — Python
raises `ValueError` on them) give `none`, which the key function below
treats as `float("inf")`. -/
def pyFloatOfString (s : String) : Option Rat :=
  let l := (pyLower (pyStrip s)).data
  let p := breakAt 'e' l
  let sm := parseSign p.1
  match parseUnsignedMantissa sm.2 with
  | none => none
  | some q =>
    let v : Rat := if sm.1 then -q else q
    match p.2 with
    | [] => some v
    | _ :: ex =>
      let se := parseSign ex
      if se.2 ≠ [] ∧ se.2.all Char.isDigit then
        let e := digitsToNat se.2
        some (if se.1 then v / (10 : Rat) ^ e else v * (10 : Rat) ^ e)
      else none

/-- Python `float(v)` on a cell: numbers are their value, strings go
through the literal grammar. -/
def pyFloat : Value → Option Rat
  | .intV i => some (i : Rat)
  | .ratV q => some q
  | .strV s => pyFloatOfString s

/-- Python `str(v)` on a cell (text columns hold texts; the numeric
renderings only matter off the text columns). -/
def valueStr : Value → String
  | .intV i => toString i
  | .ratV q => toString q
  | .strV s => s

/-- Lexicographic (code-point) order on character lists — Python's
string `<=`. -/
def lexLe : List Char → List Char → Bool
  | [], _ => true
  | _ :: _, [] => false
  | a :: as, b :: bs => if a = b then lexLe as bs else decide (a < b)

/-- `key_fn` of `CarTableModel.sort`: on a numeric column `float(v)`
with `float("inf")` (here `none`) for unparsable cells; on a text column
`str(v).lower()`. -/
def key_fn (column : Nat) (rec : List Value) : Sum (Option Rat) String :=
  let v := rec.getD (DISPLAY_COLS.getD column 0) (Value.strV "")
  if column ∈ NUMERIC_COLS then .inl (pyFloat v)
  else .inr (pyLower (valueStr v))

/-- Order on numeric keys: `none` plays `float("inf")`, greater than
every parsed value. -/
def optRatLe : Option Rat → Option Rat → Bool
  | some a, some b => decide (a ≤ b)
  | some _, none => true
  | none, none => true
  | none, some _ => false

/-- Order on sort keys (one column only ever produces one side of the
sum; the cross cases are fixed arbitrarily but totally). -/
def keyLe : Sum (Option Rat) String → Sum (Option Rat) String → Bool
  | .inl a, .inl b => optRatLe a b
  | .inr a, .inr b => lexLe a.data b.data
  | .inl _, .inr _ => true
  | .inr _, .inl _ => false

/-- The comparison `list.sort(key=key_fn, reverse=reverse)` sorts by:
ascending key order, flipped when descending.  (Python's sort and a
flipped-comparator stable sort place equal-key elements identically: in
original order.) -/
def rowLe (column : Nat) (desc : Bool) (a b : List Value) : Bool :=
  if desc then keyLe (key_fn column b) (key_fn column a)
  else keyLe (key_fn column a) (key_fn column b)

/-- `CarTableModel.sort`: stable sort of the rows by the column key.
Python's Timsort is stable; a stable sort's output is unique, so the
stable `List.insertionSort` computes it. -/
def sortRows (data : List (List Value)) (column : Nat) (desc : Bool) :
    List (List Value) :=
  List.insertionSort (fun a b => rowLe column desc a b = true) data

/-- The numeric key of a row in a column (the `.inl` payload of
`key_fn` on a numeric column). -/
def numKey (column : Nat) (rec : List Value) : Option Rat :=
  pyFloat (rec.getD (DISPLAY_COLS.getD column 0) (Value.strV ""))

/-! ### Spreadsheet export / import
(`MainWindow.export_to_excel`, `MainWindow.import_data`.)
Export writes one spreadsheet row per car with all thirteen columns;
the import reads the eleven required columns back (neither `ID` nor
`Image Path` is consumed), validates each row — required strings
non-empty after strip, enums in their sets, year in range, numerics
positive — and inserts the valid ones through `insert_car` with an empty
`image_path`, counting failures. -/

/-- `export_to_excel`: the DataFrame rows are exactly the stored rows. -/
def export_rows (db : DB) : List Car := db.cars

/-- The per-row body of the `import_data` loop: coerce and strip the
eleven required fields, run the three validation checks in source order,
and produce the tuple passed to `insert_car` (whose `image_path` is
`""`). -/
def import_row (r : Car) : Except String CarFields :=
  let make := pyStrip r.fields.make
  let model := pyStrip r.fields.model
  let color := pyStrip r.fields.color
  let car_type := pyStrip r.fields.type
  let condition := pyStrip r.fields.condition
  let drive := pyStrip r.fields.drive_trains
  let sales := pyStrip r.fields.salesperson
  if ¬ (make ≠ "" ∧ model ≠ "" ∧ color ≠ "" ∧ sales ≠ "") then
    .error "Required fields missing"
  else if car_type ∉ ENUM_TYPES ∨ condition ∉ ENUM_CONDITIONS ∨ drive ∉ ENUM_DRIVES then
    .error "Invalid enum value"
  else if ¬ (1886 ≤ r.fields.year ∧ r.fields.year ≤ 2050) ∨ r.fields.price ≤ 0 ∨
      r.fields.engine_power ≤ 0 ∨ r.fields.liter_capacity ≤ 0 then
    .error "Invalid numeric value"
  else
    .ok { make := make, model := model, year := r.fields.year,
          price := r.fields.price, color := color, type := car_type,
          condition := condition, drive_trains := drive,
          engine_power := r.fields.engine_power,
          liter_capacity := r.fields.liter_capacity,
          salesperson := sales, image_path := "" }

/-- The `for _, r in df.iterrows()` loop of `import_data`: each valid
row is inserted and counted in `ok`, each invalid one only counted in
`failed`. -/
def import_loop (db : DB) (ok failed : Nat) : List Car → DB × Nat × Nat
  | [] => (db, ok, failed)
  | r :: rest =>
    match import_row r with
    | .ok f => import_loop (insert_car db f) (ok + 1) failed rest
    | .error _ => import_loop db ok (failed + 1) rest

/-- `MainWindow.import_data` on an already-read row list. -/
def import_data (db : DB) (rows : List Car) : DB × Nat × Nat :=
  import_loop db 0 0 rows

/-! ### Concrete records used to evaluate the definitions -/

/-- A fully valid input tuple. -/
def okFields : CarFields :=
  ⟨"Toyota", "Corolla", 2020, 10000, "Red", "Sedan", "Used", "FWD", 1600, 50, "Dina", ""⟩

/-- Valid except for `year = 1885`. -/
def badYearInput : CarFields := { okFields with year := 1885 }

/-- Valid in every checked respect but carrying a `type` outside
`ENUM_TYPES`. -/
def nonEnumInput : CarFields := { okFields with type := "Spaceship" }

/-- A stored car. -/
def car1 : Car := ⟨1, okFields⟩

/-- A second stored car with a different make, price and condition. -/
def car2 : Car :=
  ⟨2, { okFields with make := "BMW", model := "320i", price := 20000, condition := "New" }⟩

/-- A store holding `car1` and `car2`. -/
def exDB : DB := ⟨[car1, car2], [], 3, 1⟩

/-- A store holding one car and one image row attached to it. -/
def exImgDB : DB := ⟨[car1], [⟨1, 1, "car_images/a.png"⟩], 2, 2⟩

/-- A stored car carrying a primary image path. -/
def imgCar : Car := ⟨1, { okFields with image_path := "cars/a.png" }⟩

/-- A store holding only `imgCar`. -/
def imgDB : DB := ⟨[imgCar], [], 2, 1⟩

/-- Four cars with prices 10000, 20000, 30000, 40000. -/
def ex4 : List Car :=
  [⟨1, okFields⟩, ⟨2, { okFields with price := 20000 }⟩,
   ⟨3, { okFields with price := 30000 }⟩, ⟨4, { okFields with price := 40000 }⟩]

/-- A table row with price `100`. -/
def rowA : List Value :=
  [.intV 1, .strV "B", .strV "m", .intV 2020, .ratV 100]

/-- A table row whose price cell holds the unparsable text `"abc"`. -/
def rowB : List Value :=
  [.intV 2, .strV "a", .strV "m", .intV 2021, .strV "abc"]

/-- A table row with price `5`. -/
def rowC : List Value :=
  [.intV 3, .strV "c", .strV "m", .intV 2019, .ratV 5]

/-- The empty `updates` dict. -/
def emptyPatch : CarPatch := {}

/-- The dict `{"price": q}`. -/
def pricePatch (q : Rat) : CarPatch := { price := some q }

/-! ## Theorems -/

/-- C1: the `create` path (`CarFormDialog.get_data` feeding the insert)
rejects, with the message naming the violated constraint and with the
store left exactly as it was, every input whose year is outside
[1886, 2050], whose price / engine power / liter capacity is not
positive, or whose required strings are empty after stripping — the
checks run in that priority order.  (The claim's further case, a
non-enum `type` value, is NOT rejected: see the counterexample.) -/
theorem C1_create_validation : ∀ (db : DB) (d : CarFields),
    (¬ (1886 ≤ d.year ∧ d.year ≤ 2050) →
      add_car_dialog db d = (db, some "invalid_year_range"))
    ∧ ((1886 ≤ d.year ∧ d.year ≤ 2050) →
      (d.price ≤ 0 ∨ d.engine_power ≤ 0 ∨ d.liter_capacity ≤ 0) →
      add_car_dialog db d = (db, some "invalid_positive_value"))
    ∧ ((1886 ≤ d.year ∧ d.year ≤ 2050) →
      ¬ (d.price ≤ 0 ∨ d.engine_power ≤ 0 ∨ d.liter_capacity ≤ 0) →
      ¬ (pyStrip d.make ≠ "" ∧ pyStrip d.model ≠ "" ∧ pyStrip d.color ≠ "" ∧
          pyStrip d.salesperson ≠ "") →
      add_car_dialog db d = (db, some "all_fields_required")) := by
  intro db d
  refine ⟨fun h1 => ?_, fun h1 h2 => ?_, fun h1 h2 h3 => ?_⟩
  · simp [add_car_dialog, get_data, h1]
  · simp [add_car_dialog, get_data, h1, h2]
  · simp [add_car_dialog, get_data, h1, h2, h3]

/-- C1 witness: `create` at year 1885 fails with the year-range message
and the store is unchanged. -/
theorem C1_create_validation_witness :
    add_car_dialog emptyDB badYearInput = (emptyDB, some "invalid_year_range") :=
  (C1_create_validation emptyDB badYearInput).1 (by decide)

/-- C1 counterexample: an input whose `type` is not in `ENUM_TYPES` is
NOT rejected by `create` — `get_data` has no enum membership check — and
the record is persisted with the non-enum value. -/
theorem C1_counterexample :
    nonEnumInput.type ∉ ENUM_TYPES
    ∧ (add_car_dialog emptyDB nonEnumInput).2 = none
    ∧ ((add_car_dialog emptyDB nonEnumInput).1.cars.map (fun c => c.fields.type))
        = ["Spaceship"] := by
  decide

/-- C2: in the `database.py` layer, when the storage engine reports an
error (`engineOk = false`, the branch where `execute_query` catches the
`sqlite3.Error` and yields `None`), every read returns an empty result
(`[]` / `None`) while every write leaves the store unchanged and
surfaces the failure through its result (`None` instead of a row id or
cursor); and for every write call and any engine outcome, either the
change is persisted together with a non-`None` result, or nothing
changes and the result is `None` — never a silently successful no-op. -/
theorem C2_storage_error_paths :
    ∀ (db : DB) (car_id : Nat) (p : CarPatch) (f : CarFields) (m : String),
    DatabasePy.fetch_all_cars false db = []
    ∧ DatabasePy.fetch_cars_by_make false db m = []
    ∧ DatabasePy.fetch_car_by_id false db car_id = none
    ∧ DatabasePy.add_car false db f = (none, db)
    ∧ (patchIsEmpty p = false → DatabasePy.update_car false db car_id p = (none, db))
    ∧ DatabasePy.delete_car false db car_id = (none, db)
    ∧ (∀ engineOk : Bool,
        DatabasePy.add_car engineOk db f
            = (some db.next_id, insert_car db (DatabasePy.stripFields f))
        ∨ DatabasePy.add_car engineOk db f = (none, db))
    ∧ (∀ engineOk : Bool, patchIsEmpty p = false →
        DatabasePy.update_car engineOk db car_id p = (some (), update_car db car_id p)
        ∨ DatabasePy.update_car engineOk db car_id p = (none, db))
    ∧ (∀ engineOk : Bool,
        DatabasePy.delete_car engineOk db car_id = (some (), delete_car db car_id)
        ∨ DatabasePy.delete_car engineOk db car_id = (none, db)) := by
  intro db car_id p f m
  refine ⟨rfl, rfl, rfl, rfl, fun h => ?_, rfl, fun ok => ?_, fun ok h => ?_, fun ok => ?_⟩
  · simp [DatabasePy.update_car, h]
  · cases ok <;> simp [DatabasePy.add_car]
  · cases ok <;> simp [DatabasePy.update_car, h]
  · cases ok <;> simp [DatabasePy.delete_car]

/-- C2 witness: on an engine error an update with a non-empty patch
reports `None` and stores nothing. -/
theorem C2_storage_error_paths_witness :
    DatabasePy.update_car false exDB 1 (pricePatch 50000) = (none, exDB) :=
  (C2_storage_error_paths exDB 1 (pricePatch 50000) okFields "Toyota").2.2.2.2.1
    (by decide)

/-- C3: getById on an id held by no row returns the not-found result
(`None`), and getById right after `delete(id)` returns `None`; but
`update` on an absent id does NOT fail: with a non-empty patch it runs
the UPDATE (matching zero rows), returns its cursor as on success, and
leaves the store unchanged — there is no `NotFoundError` check in
`Database.update_car`. -/
theorem C3_absent_id_behaviour : ∀ (db : DB) (car_id : Nat) (p : CarPatch),
    ((∀ c ∈ db.cars, c.id ≠ car_id) → fetch_car_by_id db car_id = none)
    ∧ (patchIsEmpty p = false → (∀ c ∈ db.cars, c.id ≠ car_id) →
        DatabasePy.update_car true db car_id p = (some (), db))
    ∧ fetch_car_by_id (delete_car db car_id) car_id = none := by
  intro db car_id p
  refine ⟨fun h => ?_, fun hp h => ?_, ?_⟩
  · exact List.find?_eq_none.mpr (fun c hc => by simpa using h c hc)
  · have hcars : db.cars.map
        (fun c => if c.id == car_id then applyPatch p c else c) = db.cars := by
      calc db.cars.map (fun c => if c.id == car_id then applyPatch p c else c)
          = db.cars.map id := List.map_congr_left (fun c hc => by
            simp [beq_eq_false_iff_ne.mpr (h c hc)])
        _ = db.cars := List.map_id db.cars
    have hdb : update_car db car_id p = db := by
      have heq : update_car db car_id p
          = { db with cars := db.cars.map (fun c => if c.id == car_id then applyPatch p c else c) } :=
        rfl
      rw [heq, hcars]
    simp [DatabasePy.update_car, hp, hdb]
  · refine List.find?_eq_none.mpr (fun c hc => ?_)
    have := (List.mem_filter.mp hc).2
    simpa using this

/-- C3 witness: in a store whose ids are 1 and 2, getById 99 is `None`
and getById 1 right after deleting 1 is `None`. -/
theorem C3_absent_id_behaviour_witness :
    fetch_car_by_id exDB 99 = none
    ∧ fetch_car_by_id (delete_car exDB 1) 1 = none :=
  ⟨(C3_absent_id_behaviour exDB 99 emptyPatch).1 (by decide),
   (C3_absent_id_behaviour exDB 1 emptyPatch).2.2⟩

/-- C3 counterexample: id 99 is absent from the store, yet
`update(99, {"price": 50000})` returns the success cursor and raises
nothing — it does not fail with a not-found error as the claim states. -/
theorem C3_counterexample :
    (∀ c ∈ exDB.cars, c.id ≠ 99)
    ∧ DatabasePy.update_car true exDB 99 (pricePatch 50000) = (some (), exDB) := by
  decide

/-- C4: a partial update touches exactly the supplied fields: the
`{"price": q}` patch rewrites `price` and nothing else; any column
absent from the dict keeps its value (and the row id is never touched);
rows whose id differs from the updated one are carried over unchanged,
and the matching row is carried over with just the patch applied. -/
theorem C4_partial_update_frame :
    ∀ (db : DB) (car_id : Nat) (p : CarPatch) (q : Rat) (c : Car),
    applyPatch (pricePatch q) c = { c with fields := { c.fields with price := q } }
    ∧ (applyPatch p c).id = c.id
    ∧ (p.make = none → (applyPatch p c).fields.make = c.fields.make)
    ∧ (p.model = none → (applyPatch p c).fields.model = c.fields.model)
    ∧ (p.year = none → (applyPatch p c).fields.year = c.fields.year)
    ∧ (p.price = none → (applyPatch p c).fields.price = c.fields.price)
    ∧ (p.color = none → (applyPatch p c).fields.color = c.fields.color)
    ∧ (p.type = none → (applyPatch p c).fields.type = c.fields.type)
    ∧ (p.condition = none → (applyPatch p c).fields.condition = c.fields.condition)
    ∧ (p.drive_trains = none →
        (applyPatch p c).fields.drive_trains = c.fields.drive_trains)
    ∧ (p.engine_power = none →
        (applyPatch p c).fields.engine_power = c.fields.engine_power)
    ∧ (p.liter_capacity = none →
        (applyPatch p c).fields.liter_capacity = c.fields.liter_capacity)
    ∧ (p.salesperson = none →
        (applyPatch p c).fields.salesperson = c.fields.salesperson)
    ∧ (p.image_path = none → (applyPatch p c).fields.image_path = c.fields.image_path)
    ∧ (c ∈ db.cars → c.id ≠ car_id → c ∈ (update_car db car_id p).cars)
    ∧ (c ∈ db.cars → c.id = car_id → applyPatch p c ∈ (update_car db car_id p).cars) := by
  intro db car_id p q c
  refine ⟨rfl, rfl, fun h => ?_, fun h => ?_, fun h => ?_, fun h => ?_, fun h => ?_,
    fun h => ?_, fun h => ?_, fun h => ?_, fun h => ?_, fun h => ?_, fun h => ?_,
    fun h => ?_, fun hc hne => ?_, fun hc heq => ?_⟩
  all_goals first
  | (simp [applyPatch, h])
  | skip
  · exact List.mem_map.mpr ⟨c, hc, by simp [beq_eq_false_iff_ne.mpr hne]⟩
  · exact List.mem_map.mpr ⟨c, hc, by simp [beq_iff_eq.mpr heq]⟩

/-- C4 witness: updating car 1's price to 50000 keeps car 2 unchanged
and carries car 1 over with only its price rewritten. -/
theorem C4_partial_update_frame_witness :
    car2 ∈ (update_car exDB 1 (pricePatch 50000)).cars
    ∧ { car1 with fields := { car1.fields with price := 50000 } }
        ∈ (update_car exDB 1 (pricePatch 50000)).cars := by
  refine ⟨(C4_partial_update_frame exDB 1 (pricePatch 50000) 50000 car2).2.2.2.2.2.2.2.2.2.2.2.2.2.2.1
      (by decide) (by decide), ?_⟩
  have h := (C4_partial_update_frame exDB 1 (pricePatch 50000) 50000 car1)
  have h1 := h.2.2.2.2.2.2.2.2.2.2.2.2.2.2.2 (by decide) rfl
  rwa [h.1] at h1

/-- C5: deleting a car touches only the `cars` table: the `car_images`
table is exactly what it was — in particular every image row attached to
the deleted id survives — while the car rows left are exactly those
whose id differs from the deleted one. -/
theorem C5_delete_no_cascade : ∀ (db : DB) (car_id : Nat),
    (delete_car db car_id).images = db.images
    ∧ (∀ r : ImageRow, r ∈ db.images → r.car_id = car_id →
        r ∈ (delete_car db car_id).images)
    ∧ (∀ c : Car, c ∈ (delete_car db car_id).cars ↔ c ∈ db.cars ∧ c.id ≠ car_id) := by
  intro db car_id
  refine ⟨rfl, fun r hr _ => hr, fun c => ?_⟩
  simp [delete_car, List.mem_filter]

/-- C5 witness: deleting car 1 from a store with an image row attached
to car 1 leaves that image row in place. -/
theorem C5_delete_no_cascade_witness :
    (⟨1, 1, "car_images/a.png"⟩ : ImageRow) ∈ (delete_car exImgDB 1).images :=
  (C5_delete_no_cascade exImgDB 1).2.1 ⟨1, 1, "car_images/a.png"⟩ (by decide) rfl

/-- C10: calling `update_car` with an empty dict returns `None` before
any SQL is built — whatever the engine state, the id (present or
absent), every record is left unchanged and no error is raised. -/
theorem C10_empty_patch_update :
    ∀ (engineOk : Bool) (db : DB) (car_id : Nat) (p : CarPatch),
    patchIsEmpty p = true → DatabasePy.update_car engineOk db car_id p = (none, db) := by
  intro ok db car_id p h
  simp [DatabasePy.update_car, h]

/-- C10 witness: the empty patch on an absent id leaves the concrete
store untouched and reports nothing. -/
theorem C10_empty_patch_update_witness :
    DatabasePy.update_car true exDB 99 emptyPatch = (none, exDB) :=
  C10_empty_patch_update true exDB 99 emptyPatch (by decide)

/-- Satisfying the make clause group means: if a make string was
supplied, the row matches it. -/
theorem makeClause_all (m : String) (c : Car) :
    ((makeClause m).all (fun f => f c) = true) ↔ (m ≠ "" → likeMake m c = true) := by
  by_cases h : m = "" <;> simp [makeClause, h]

/-- Satisfying an optional-bound clause group means: if the bound was
supplied, the row satisfies it. -/
theorem optClause_all {α : Type} (o : Option α) (mk : α → Car → Bool) (c : Car) :
    ((optClause o mk).all (fun f => f c) = true) ↔ (∀ x, o = some x → mk x c = true) := by
  cases o <;> simp [optClause]

/-- Satisfying an enum clause group means: if the value was supplied,
truthy and not "Any", the row's column equals it. -/
theorem enumClause_all (o : Option String) (sel : Car → String) (c : Car) :
    ((enumClause o sel).all (fun f => f c) = true) ↔
      (∀ s, o = some s → s ≠ "" → s ≠ "Any" → sel c = s) := by
  cases o with
  | none => simp [enumClause]
  | some s =>
    rcases Classical.em (s ≠ "" ∧ s ≠ "Any") with h | h
    · simp [enumClause, if_pos h, h.1, h.2]
    · simp only [enumClause, if_neg h, List.all_nil]
      refine ⟨fun _ t heq h1 h2 => ?_, fun _ => trivial⟩
      cases heq
      exact absurd ⟨h1, h2⟩ h

/-- Membership in the filter result is membership in the table plus the
conjunction of every supplied criterion. -/
theorem mem_fetch_cars_by_filters (db : DB) (make : String)
    (year_min year_max : Option Int) (price_min price_max : Option Rat)
    (condition drive_trains : Option String) (c : Car) :
    c ∈ fetch_cars_by_filters db make year_min year_max price_min price_max
        condition drive_trains ↔
      c ∈ db.cars
      ∧ (make ≠ "" → likeMake make c = true)
      ∧ (∀ y, year_min = some y → y ≤ c.fields.year)
      ∧ (∀ y, year_max = some y → c.fields.year ≤ y)
      ∧ (∀ q, price_min = some q → q ≤ c.fields.price)
      ∧ (∀ q, price_max = some q → c.fields.price ≤ q)
      ∧ (∀ s, condition = some s → s ≠ "" → s ≠ "Any" → c.fields.condition = s)
      ∧ (∀ s, drive_trains = some s → s ≠ "" → s ≠ "Any" → c.fields.drive_trains = s) := by
  rw [fetch_cars_by_filters, List.mem_filter, filterClauses]
  simp only [List.all_append, Bool.and_eq_true]
  rw [makeClause_all, optClause_all, optClause_all, optClause_all, optClause_all,
    enumClause_all, enumClause_all]
  simp [and_assoc]

/-- C6: the SQL filter conjoins exactly the supplied criteria: a
condition of "Any" builds the same query as no condition at all; a
condition of "Used" only returns rows whose condition column is "Used";
and membership in the result is equivalent to matching the
case-insensitive make substring (when supplied), the inclusive year and
price bounds (when supplied), and the condition / drive_trains equality
(when supplied, truthy and not "Any"). -/
theorem C6_filter_semantics :
    ∀ (db : DB) (make : String) (year_min year_max : Option Int)
      (price_min price_max : Option Rat) (condition drive_trains : Option String),
    fetch_cars_by_filters db make year_min year_max price_min price_max
        (some "Any") drive_trains
      = fetch_cars_by_filters db make year_min year_max price_min price_max
        none drive_trains
    ∧ (∀ c ∈ fetch_cars_by_filters db make year_min year_max price_min price_max
          (some "Used") drive_trains, c.fields.condition = "Used")
    ∧ (∀ c, c ∈ fetch_cars_by_filters db make year_min year_max price_min price_max
          condition drive_trains ↔
        c ∈ db.cars
        ∧ (make ≠ "" → likeMake make c = true)
        ∧ (∀ y, year_min = some y → y ≤ c.fields.year)
        ∧ (∀ y, year_max = some y → c.fields.year ≤ y)
        ∧ (∀ q, price_min = some q → q ≤ c.fields.price)
        ∧ (∀ q, price_max = some q → c.fields.price ≤ q)
        ∧ (∀ s, condition = some s → s ≠ "" → s ≠ "Any" → c.fields.condition = s)
        ∧ (∀ s, drive_trains = some s → s ≠ "" → s ≠ "Any" →
            c.fields.drive_trains = s)) := by
  intro db make ymin ymax pmin pmax cond dt
  refine ⟨?_, fun c hc => ?_, fun c => mem_fetch_cars_by_filters _ _ _ _ _ _ _ _ _⟩
  · have h : enumClause (some "Any") (fun c => c.fields.condition)
        = enumClause none (fun c => c.fields.condition) := by
      simp [enumClause]
    rw [fetch_cars_by_filters, fetch_cars_by_filters, filterClauses, filterClauses, h]
  · exact ((mem_fetch_cars_by_filters db make ymin ymax pmin pmax (some "Used") dt
      c).mp hc).2.2.2.2.2.2.1 "Used" rfl (by decide) (by decide)

/-- C6 witness: in the concrete store, filtering with condition "Used"
yields rows whose condition is "Used", and filtering with condition
"Any" equals filtering with no condition. -/
theorem C6_filter_semantics_witness :
    car1.fields.condition = "Used"
    ∧ fetch_cars_by_filters exDB "" none none none none (some "Any") none
        = fetch_cars_by_filters exDB "" none none none none none none :=
  ⟨(C6_filter_semantics exDB "" none none none none none none).2.1 car1 (by decide),
   (C6_filter_semantics exDB "" none none none none none none).1⟩

/-- C7: the aggregates are the record count, the arithmetic mean of
price (0 for the empty set), the median of price — taken at the middle
of the ascending sort of the prices, averaging the two middle values for
an even-sized set, 0 for the empty set — and a per-make frequency count;
over prices [10000, 20000, 30000, 40000] the mean and the median are
both 25000, and over the empty set count, mean and median are 0. -/
theorem C7_aggregate_stats :
    (∀ (cars : List Car) (m : String),
      (aggregate cars).count = cars.length
      ∧ (aggregate cars).mean
          = (if cars.length = 0 then 0 else (prices cars).sum / (cars.length : Rat))
      ∧ List.Sorted (· ≤ ·) (sorted_of (prices cars))
      ∧ (sorted_of (prices cars)).Perm (prices cars)
      ∧ (cars ≠ [] → (prices cars).length % 2 = 0 →
          (aggregate cars).median
            = ((sorted_of (prices cars)).getD ((prices cars).length / 2 - 1) 0
                + (sorted_of (prices cars)).getD ((prices cars).length / 2) 0) / 2)
      ∧ count_by_make cars m = (cars.filter (fun c => c.fields.make == m)).length)
    ∧ aggregate ([] : List Car) = ⟨0, 0, 0⟩
    ∧ (aggregate ex4).mean = 25000
    ∧ (aggregate ex4).median = 25000 := by
  refine ⟨fun cars m => ⟨rfl, ?_, ?_, ?_, fun h1 h2 => ?_, ?_⟩, by decide, ?_, ?_⟩
  · by_cases h : cars = []
    · subst h; simp [aggregate, average_of, prices]
    · have h1 : prices cars ≠ [] := by simpa [prices] using h
      have h2 : cars.length ≠ 0 := by simpa [List.length_eq_zero] using h
      simp [aggregate, average_of, prices, h1, h2, h]
  · exact List.sorted_insertionSort _ _
  · exact List.perm_insertionSort _ _
  · have hys : prices cars ≠ [] := by simpa [prices] using h1
    have hlen2 : (sorted_of (prices cars)).length = (prices cars).length :=
      List.length_insertionSort _ _
    have hodd : ¬ ((sorted_of (prices cars)).length % 2 = 1) := by omega
    have hne : ¬ ((prices cars).length % 2 = 1) := by omega
    simp [aggregate, median_of, hys, hlen2, hodd, hne]
  · simp [count_by_make, List.countP_eq_length_filter]
  · have hp : prices ex4 = [10000, 20000, 30000, 40000] := rfl
    show average_of (prices ex4) = 25000
    rw [hp]
    simp [average_of]
    norm_num
  · have hp : prices ex4 = [10000, 20000, 30000, 40000] := rfl
    have hs : sorted_of [(10000 : Rat), 20000, 30000, 40000]
        = [10000, 20000, 30000, 40000] := by decide
    show median_of (prices ex4) = 25000
    rw [hp]
    simp [median_of, hs]
    norm_num

/-- C7 witness: the even-median clause applied to the four-price store:
the median is the average of the two middle sorted prices. -/
theorem C7_aggregate_stats_witness :
    (aggregate ex4).median
      = ((sorted_of (prices ex4)).getD 1 0 + (sorted_of (prices ex4)).getD 2 0) / 2 :=
  (C7_aggregate_stats.1 ex4 "Toyota").2.2.2.2.1 (by decide) (by decide)

/-- Totality of the lexicographic string order. -/
theorem lexLe_total : ∀ a b : List Char, lexLe a b = true ∨ lexLe b a = true := by
  intro a
  induction a with
  | nil => intro b; left; rfl
  | cons x xs ih =>
    intro b
    cases b with
    | nil => right; rfl
    | cons y ys =>
      by_cases h : x = y
      · subst h
        rcases ih ys with h1 | h1
        · left; simpa [lexLe] using h1
        · right; simpa [lexLe] using h1
      · rcases lt_or_gt_of_ne h with hlt | hgt
        · left; simp [lexLe, h, hlt]
        · right; simp [lexLe, Ne.symm h, hgt]

/-- Transitivity of the lexicographic string order. -/
theorem lexLe_trans : ∀ a b c : List Char,
    lexLe a b = true → lexLe b c = true → lexLe a c = true := by
  intro a
  induction a with
  | nil => intro b c _ _; rfl
  | cons x xs ih =>
    intro b c hab hbc
    cases b with
    | nil => simp [lexLe] at hab
    | cons y ys =>
      cases c with
      | nil => simp [lexLe] at hbc
      | cons z zs =>
        by_cases hxy : x = y
        · subst hxy
          by_cases hyz : x = z
          · subst hyz
            simp only [lexLe, if_pos rfl] at hab hbc ⊢
            exact ih ys zs hab hbc
          · simp only [lexLe, if_pos rfl] at hab
            simpa [lexLe, hyz] using hbc
        · by_cases hyz : y = z
          · subst hyz
            simpa [lexLe, hxy] using hab
          · simp only [lexLe, if_neg hxy, decide_eq_true_eq] at hab
            simp only [lexLe, if_neg hyz, decide_eq_true_eq] at hbc
            by_cases hxz : x = z
            · subst hxz
              exact absurd (hab.trans hbc) (lt_irrefl x)
            · simp [lexLe, hxz]
              exact hab.trans hbc

/-- Totality of the numeric key order. -/
theorem optRatLe_total : ∀ a b : Option Rat, optRatLe a b = true ∨ optRatLe b a = true := by
  intro a b
  cases a with
  | none => cases b <;> simp [optRatLe]
  | some x =>
    cases b with
    | none => left; rfl
    | some y =>
      rcases le_total x y with h | h
      · left; simpa [optRatLe] using h
      · right; simpa [optRatLe] using h

/-- Transitivity of the numeric key order. -/
theorem optRatLe_trans : ∀ a b c : Option Rat,
    optRatLe a b = true → optRatLe b c = true → optRatLe a c = true := by
  intro a b c hab hbc
  cases a with
  | none =>
    cases b with
    | none => exact hbc
    | some y => simp [optRatLe] at hab
  | some x =>
    cases c with
    | none => cases b <;> rfl
    | some z =>
      cases b with
      | none => simp [optRatLe] at hbc
      | some y =>
        simp only [optRatLe, decide_eq_true_eq] at hab hbc ⊢
        exact hab.trans hbc

/-- Totality of the sort-key order. -/
theorem keyLe_total : ∀ a b : Sum (Option Rat) String,
    keyLe a b = true ∨ keyLe b a = true := by
  intro a b
  cases a with
  | inl x =>
    cases b with
    | inl y => simpa [keyLe] using optRatLe_total x y
    | inr y => left; rfl
  | inr x =>
    cases b with
    | inl y => right; rfl
    | inr y => simpa [keyLe] using lexLe_total x.data y.data

/-- Transitivity of the sort-key order. -/
theorem keyLe_trans : ∀ a b c : Sum (Option Rat) String,
    keyLe a b = true → keyLe b c = true → keyLe a c = true := by
  intro a b c hab hbc
  cases a with
  | inl x =>
    cases c with
    | inl z =>
      cases b with
      | inl y => exact optRatLe_trans x y z hab hbc
      | inr y => simp [keyLe] at hbc
    | inr z => rfl
  | inr x =>
    cases b with
    | inl y => simp [keyLe] at hab
    | inr y =>
      cases c with
      | inl z => simp [keyLe] at hbc
      | inr z => exact lexLe_trans x.data y.data z.data hab hbc

/-- Totality of the row comparison. -/
theorem rowLe_total (column : Nat) (desc : Bool) :
    ∀ a b : List Value, rowLe column desc a b = true ∨ rowLe column desc b a = true := by
  intro a b
  cases desc <;> simp only [rowLe, Bool.false_eq_true, if_false, if_true]
  · exact keyLe_total _ _
  · exact keyLe_total _ _

/-- Transitivity of the row comparison. -/
theorem rowLe_trans (column : Nat) (desc : Bool) :
    ∀ a b c : List Value, rowLe column desc a b = true → rowLe column desc b c = true →
      rowLe column desc a c = true := by
  intro a b c hab hbc
  cases desc <;> simp only [rowLe, Bool.false_eq_true, if_false, if_true] at hab hbc ⊢
  · exact keyLe_trans _ _ _ hab hbc
  · exact keyLe_trans _ _ _ hbc hab

/-- The output of the table sort is ordered by the row comparison. -/
theorem sortRows_pairwise (data : List (List Value)) (column : Nat) (desc : Bool) :
    List.Pairwise (fun a b => rowLe column desc a b = true) (sortRows data column desc) := by
  haveI h1 : IsTotal (List Value) (fun a b => rowLe column desc a b = true) :=
    ⟨rowLe_total column desc⟩
  haveI h2 : IsTrans (List Value) (fun a b => rowLe column desc a b = true) :=
    ⟨rowLe_trans column desc⟩
  exact List.sorted_insertionSort _ data

/-- On a numeric column the key is the `float(...)`-or-infinity value. -/
theorem key_fn_numeric (column : Nat) (rec : List Value) (h : column ∈ NUMERIC_COLS) :
    key_fn column rec = .inl (numKey column rec) := by
  simp [key_fn, numKey, h]

/-- C8: sorting a numeric column ascending places every row whose cell
does not parse as a number (key `float("inf")`) after every row whose
cell parses; on a non-numeric column the comparison is the
case-insensitive (lowercased) lexicographic comparison of the rendered
cells; concretely, ascending sort on the price column puts the row with
price "abc" last, and ascending sort on the make column orders "a"
before "B" before "c". -/
theorem C8_sort_semantics :
    (∀ (data : List (List Value)) (col : Nat), col ∈ NUMERIC_COLS →
      ∀ i j : Nat,
        i < (sortRows data col false).length → j < (sortRows data col false).length →
        numKey col ((sortRows data col false).getD i []) = none →
        (numKey col ((sortRows data col false).getD j [])).isSome = true →
        j < i)
    ∧ (∀ (col : Nat) (a b : List Value), col ∉ NUMERIC_COLS →
        rowLe col false a b
          = lexLe (pyLower (valueStr (a.getD (DISPLAY_COLS.getD col 0) (Value.strV "")))).data
              (pyLower (valueStr (b.getD (DISPLAY_COLS.getD col 0) (Value.strV "")))).data)
    ∧ sortRows [rowA, rowB, rowC] 4 false = [rowC, rowA, rowB]
    ∧ sortRows [rowA, rowB, rowC] 1 false = [rowB, rowA, rowC] := by
  refine ⟨?_, ?_, by decide, by decide⟩
  · intro data col hcol i j hi hj hni hsj
    have hk : ∀ a b : List Value,
        rowLe col false a b = optRatLe (numKey col a) (numKey col b) := by
      intro a b
      simp only [rowLe, Bool.false_eq_true, if_false,
        key_fn_numeric col a hcol, key_fn_numeric col b hcol]
      rfl
    rcases Nat.lt_trichotomy j i with h | h | h
    · exact h
    · exfalso
      subst h
      rw [hni] at hsj
      simp at hsj
    · exfalso
      have hp := sortRows_pairwise data col false
      have hrel := List.pairwise_iff_getElem.mp hp i j hi hj h
      rw [List.getD_eq_getElem _ [] hi] at hni
      rw [List.getD_eq_getElem _ [] hj] at hsj
      rw [hk] at hrel
      rw [hni] at hrel
      rcases Option.isSome_iff_exists.mp hsj with ⟨q, hq⟩
      rw [hq] at hrel
      simp [optRatLe] at hrel
  · intro col a b h
    simp only [rowLe, Bool.false_eq_true, if_false, key_fn, if_neg h]
    rfl

/-- C8 witness: in the concrete three-row table sorted ascending on the
price column, the unparsable-price row sits at index 2, after the
parsable-price row at index 0. -/
theorem C8_sort_semantics_witness :
    numKey 4 ((sortRows [rowA, rowB, rowC] 4 false).getD 2 []) = none
    ∧ (numKey 4 ((sortRows [rowA, rowB, rowC] 4 false).getD 0 [])).isSome = true
    ∧ 0 < 2 :=
  ⟨by decide, by decide,
   C8_sort_semantics.1 [rowA, rowB, rowC] 4 (by decide) 2 0 (by decide) (by decide)
     (by decide) (by decide)⟩

/-- When every row validates back to its own fields (with `image_path`
cleared), the import loop appends exactly those fields to the store, in
order, counting them all as ok and none as failed. -/
theorem import_loop_fields (rows : List Car) :
    ∀ (db : DB) (ok failed : Nat),
    (∀ r ∈ rows, import_row r = .ok { r.fields with image_path := "" }) →
    ((import_loop db ok failed rows).1.cars.map (fun c => c.fields)
        = db.cars.map (fun c => c.fields)
            ++ rows.map (fun r => { r.fields with image_path := "" }))
    ∧ (import_loop db ok failed rows).2.1 = ok + rows.length
    ∧ (import_loop db ok failed rows).2.2 = failed := by
  induction rows with
  | nil =>
    intro db ok failed _
    simp [import_loop]
  | cons r rest ih =>
    intro db ok failed h
    have hr := h r (by simp)
    have hrest : ∀ x ∈ rest, import_row x = .ok { x.fields with image_path := "" } :=
      fun x hx => h x (by simp [hx])
    have hstep := ih (insert_car db { r.fields with image_path := "" }) (ok + 1) failed hrest
    refine ⟨?_, ?_, ?_⟩
    · show (import_loop db ok failed (r :: rest)).1.cars.map (fun c => c.fields) = _
      rw [import_loop, hr]
      rw [hstep.1]
      simp [insert_car]
    · show (import_loop db ok failed (r :: rest)).2.1 = _
      rw [import_loop, hr, hstep.2.1]
      simp
      omega
    · show (import_loop db ok failed (r :: rest)).2.2 = _
      rw [import_loop, hr, hstep.2.2]

/-- C9: for a store every record of which passes the import validation
with its own (already stripped) field values, exporting all rows and
re-importing them into an empty store reproduces the record set: same
count, rows in order, and every field equal to the original except that
the system-generated ids are renumbered and `image_path` — which the
importer does not read — is reset to the empty string; every row counts
as ok and none as failed. -/
theorem C9_export_import_roundtrip :
    ∀ db : DB,
    (∀ r ∈ db.cars, import_row r = .ok { r.fields with image_path := "" }) →
    ((import_data emptyDB (export_rows db)).1.cars.map (fun c => c.fields)
        = db.cars.map (fun c => { c.fields with image_path := "" }))
    ∧ (import_data emptyDB (export_rows db)).1.cars.length = db.cars.length
    ∧ (import_data emptyDB (export_rows db)).2.1 = db.cars.length
    ∧ (import_data emptyDB (export_rows db)).2.2 = 0 := by
  intro db h
  have H := import_loop_fields db.cars emptyDB 0 0 h
  have h1 : (import_data emptyDB (export_rows db)).1.cars.map (fun c => c.fields)
      = db.cars.map (fun c => { c.fields with image_path := "" }) := by
    have := H.1
    simpa [import_data, export_rows, emptyDB] using this
  refine ⟨h1, ?_, ?_, ?_⟩
  · have hl := congrArg List.length h1
    simpa using hl
  · have := H.2.1
    simpa [import_data, export_rows] using this
  · exact H.2.2

/-- C9 witness: the two-car store round-trips: the re-imported fields
are the originals (their `image_path` already empty). -/
theorem C9_export_import_roundtrip_witness :
    ((import_data emptyDB (export_rows exDB)).1.cars.map (fun c => c.fields)
        = exDB.cars.map (fun c => { c.fields with image_path := "" }))
    ∧ (import_data emptyDB (export_rows exDB)).1.cars.length = exDB.cars.length := by
  have hvalid : ∀ r ∈ exDB.cars, import_row r = .ok { r.fields with image_path := "" } := by
    intro r hr
    have h : r = car1 ∨ r = car2 := by simpa [exDB] using hr
    rcases h with h | h <;> subst h <;> rfl
  exact ⟨(C9_export_import_roundtrip exDB hvalid).1,
    (C9_export_import_roundtrip exDB hvalid).2.1⟩

/-- C9 counterexample: a stored record with a non-empty `image_path`
does not come back equal: the importer never reads the image path
column, so the re-imported record's `image_path` is `""` where the
original was `"cars/a.png"` — not every field other than id is
preserved. -/
theorem C9_counterexample :
    imgCar ∈ imgDB.cars
    ∧ imgCar.fields.image_path = "cars/a.png"
    ∧ ((import_data emptyDB (export_rows imgDB)).1.cars.map
        (fun c => c.fields.image_path)) = [""] := by
  decide

end CarSys
